import Mathlib

/-!
Verification development for the mafunca library: a three-outcome result
type (`Right` / `Left` / `Nothing`, rendered here as the inductive `Triple`),
static bridging utilities (`TUtils`), and the two lazy effect wrappers
(`Eff`, asynchronous-capable, and `EffSync`, synchronous-only).

Modelling conventions (shallow embedding of the Python source):

* Python values are modelled by the dynamic type `Val`.  Functions stored
  inside values (for `ap` / `lift`) are represented by an identifier into a
  function environment `FnEnv`, together with their two inspectable flags
  (coroutine-ness and the impure tag).
* Raised exceptions are modelled by the `Err` type and an `Except Err`
  result channel.  `Err.monadError` models `MonadError` (the contract
  violation raised by the library); `Err.keyboardInterrupt` models
  `KeyboardInterrupt`.  The Python `__name__` fragments interpolated into
  error messages are not tracked; the rest of each message text is kept.
* Side effects of user functions are modelled by explicit state passing:
  a call takes a state `s : σ` and returns `Except Err β × σ`.  The state
  survives a raised error, like Python global state does.
* User-supplied functions handed to combinators are `PyFun` records: the
  two inspectable flags (`inspect.iscoroutinefunction` and the
  `mafunca_impure` attribute) plus the call behaviour.
* `await` / `_maybe_await` in `eff.py` is modelled as direct evaluation:
  within one chain execution is sequential, so suspension points do not
  change outcomes.  The `isAsync` flag of an effect body records whether
  the stored callable is an `async def` (this is what the `EffSync`
  constructor inspects).
-/

namespace Mafunca

/-- Exception model.  `monadError` carries the owning monad name, the method
name and the message detail, mirroring the `MonadError(monad, method, message)`
constructor of `exceptions.py`. -/
inductive Err where
  | monadError (monad : String) (method : String) (message : String)
  | keyboardInterrupt
  | typeError (message : String)
  | attributeError (message : String)
  | userExc (tag : String) (payload : Int)

/-- Test whether an exception is a `MonadError` (the contract-violation kind). -/
def Err.isMonadError : Err → Bool
  | .monadError _ _ _ => true
  | _ => false

/-- Test whether an exception is a `KeyboardInterrupt`. -/
def Err.isKeyboardInterrupt : Err → Bool
  | .keyboardInterrupt => true
  | _ => false

mutual

/-- Dynamic Python value.  `fnV` is a callable carrying its two inspectable
flags and an index into a `FnEnv`; `tripleV` embeds a result-type instance,
`errV` an exception object (as stored by `from_try` in a `Left`). -/
inductive Val where
  | base (n : Int)
  | vstr (s : String)
  | vnone
  | errV (e : Err)
  | fnV (isAsync : Bool) (impureTag : Bool) (id : Nat)
  | tripleV (t : Triple)

/-- The three-outcome result type of `triple.py`: `Right` (success payload),
`Left` (error payload), `Nothing` (absence, no payload). -/
inductive Triple where
  | Right (v : Val)
  | Left (v : Val)
  | Nothing

end

/-- Result of `inspect.iscoroutinefunction` on a value: the flag of a stored
callable, `false` on anything else. -/
def Val.isAsyncFn : Val → Bool
  | .fnV a _ _ => a
  | _ => false

/-- Result of `is_impure` on a value: `getattr(v, mafunca_impure, False)`. -/
def Val.isImpure : Val → Bool
  | .fnV _ i _ => i
  | _ => false

/-- Test whether a value is a `Triple` instance (`isinstance(v, Triple)`). -/
def Val.isTriple : Val → Bool
  | .tripleV _ => true
  | _ => false

/-- The `is_right` property of `triple.py`. -/
def Triple.is_right : Triple → Bool
  | .Right _ => true
  | _ => false

/-- The `is_nothing` property of `triple.py`. -/
def Triple.is_nothing : Triple → Bool
  | .Nothing => true
  | _ => false

/-- A user-supplied function argument of a combinator: the two inspectable
flags plus the (state-passing, possibly raising) call behaviour. -/
structure PyFun (α β σ : Type) where
  isAsync : Bool
  impureTag : Bool
  call : α → σ → Except Err β × σ

/-- Environment interpreting the callables stored inside `Val.fnV` values. -/
def FnEnv (σ : Type) : Type := Nat → Val → σ → Except Err Val × σ

/-- Calling a dynamic value: a stored callable dispatches through the
environment, anything else raises `TypeError` (Python `v(arg)`). -/
def callVal {σ : Type} (env : FnEnv σ) (f : Val) (arg : Val) (s : σ) :
    Except Err Val × σ :=
  match f with
  | .fnV _ _ id => env id arg s
  | _ => (.error (.typeError "object is not callable"), s)

/-- Embedding of `_panic_on_bad_function` from `triple.py`: reject a
coroutine function, and (when `checkImpure` is set) a function carrying the
impure tag. -/
def panicOnBadFunction (fnAsync : Bool) (fnImpure : Bool)
    (monad : String) (method : String) (checkImpure : Bool) : Except Err Unit :=
  if fnAsync then
    .error (.monadError monad method "function must be sync")
  else if checkImpure && fnImpure then
    .error (.monadError monad method "impure function can not be used")
  else
    .ok ()

/-- Embedding of `_panic_on_monadic_result` from `triple.py`: reject a
return value that is itself a `Triple` instance. -/
def panicOnMonadicResult (value : Val) (monad : String) (method : String) :
    Except Err Unit :=
  match value with
  | .tripleV _ =>
      .error (.monadError monad method
        "return value of applying function must not be a Triple entity")
  | _ => .ok ()

/-- Embedding of `map` from `triple.py`, dispatching on the variant.
`Right.map` validates the function, applies it, rejects a `Triple`-valued
result and rewraps in `Right`; `Left.map` and `Nothing.map` return `self`. -/
def Triple.map {σ : Type} (t : Triple) (fn : PyFun Val Val σ) (s : σ) :
    Except Err Triple × σ :=
  match t with
  | .Right v =>
    match panicOnBadFunction fn.isAsync fn.impureTag "Right" "map" true with
    | .error e => (.error e, s)
    | .ok _ =>
      match fn.call v s with
      | (.error e, s1) => (.error e, s1)
      | (.ok result, s1) =>
        match panicOnMonadicResult result "Right" "map" with
        | .error e => (.error e, s1)
        | .ok _ => (.ok (.Right result), s1)
  | .Left _ => (.ok t, s)
  | .Nothing => (.ok t, s)

/-- Embedding of `bind` from `triple.py`.  `Right.bind` validates the
function and then returns `fn(self.value)` directly — the source performs no
check on the shape of the returned value, so the result type here is `Val`,
not `Triple`.  `Left.bind` and `Nothing.bind` return `self`. -/
def Triple.bind {σ : Type} (t : Triple) (fn : PyFun Val Val σ) (s : σ) :
    Except Err Val × σ :=
  match t with
  | .Right v =>
    match panicOnBadFunction fn.isAsync fn.impureTag "Right" "bind" true with
    | .error e => (.error e, s)
    | .ok _ => fn.call v s
  | .Left _ => (.ok (.tripleV t), s)
  | .Nothing => (.ok (.tripleV t), s)

/-- Embedding of `ap` from `triple.py`.  `Right.ap` first validates its own
payload with `_panic_on_bad_function`, then short-circuits on a non-`Right`
argument, else calls the payload on the argument value and wraps a
non-`Triple` result in `Right`.  `Left.ap` and `Nothing.ap` return `self`. -/
def Triple.ap {σ : Type} (env : FnEnv σ) (t : Triple) (wrapped : Triple)
    (s : σ) : Except Err Triple × σ :=
  match t with
  | .Right fv =>
    match panicOnBadFunction fv.isAsyncFn fv.isImpure "Right" "ap" true with
    | .error e => (.error e, s)
    | .ok _ =>
      match wrapped with
      | .Right v =>
        match callVal env fv v s with
        | (.error e, s1) => (.error e, s1)
        | (.ok result, s1) =>
          match result with
          | .tripleV tr => (.ok tr, s1)
          | r => (.ok (.Right r), s1)
      | w => (.ok w, s)
  | .Left _ => (.ok t, s)
  | .Nothing => (.ok t, s)

/-- One step of a `map`/`bind` method chain on a dynamic value. -/
inductive Step (σ : Type) where
  | smap (fn : PyFun Val Val σ)
  | sbind (fn : PyFun Val Val σ)

/-- Apply one chain step to a dynamic value: method dispatch requires a
`Triple` receiver (anything else has no such attribute in Python). -/
def applyStep {σ : Type} (v : Val) (st : Step σ) (s : σ) :
    Except Err Val × σ :=
  match v with
  | .tripleV t =>
    match st with
    | .smap fn =>
      match Triple.map t fn s with
      | (.ok t1, s1) => (.ok (.tripleV t1), s1)
      | (.error e, s1) => (.error e, s1)
    | .sbind fn => Triple.bind t fn s
  | _ => (.error (.attributeError "value has no such method"), s)

/-- Run a whole `map`/`bind` method chain left to right, stopping at the
first raised error. -/
def runSteps {σ : Type} (v : Val) (steps : List (Step σ)) (s : σ) :
    Except Err Val × σ :=
  match steps with
  | [] => (.ok v, s)
  | st :: rest =>
    match applyStep v st s with
    | (.error e, s1) => (.error e, s1)
    | (.ok v1, s1) => runSteps v1 rest s1

/-- Embedding of `TUtils.is_bad`: a `Triple` instance that is not `Right`. -/
def TUtils.is_bad : Val → Bool
  | .tripleV t => !t.is_right
  | _ => false

/-- Embedding of `TUtils.unit`: wrap a value in `Right`. -/
def TUtils.unit (v : Val) : Triple := .Right v

/-- Argument tuple of a wrapped call: positional then named arguments. -/
def CallArgs : Type := List Val × List (String × Val)

/-- Embedding of `TUtils.from_try`: validates the wrapped function at wrap
time, then returns the inner wrapper that converts a normal return into
`Right(result)` and a raised `Exception` into `Left(err)`, re-raising
`MonadError` and `KeyboardInterrupt` (the latter is not an `Exception` heir
in Python, so on both readings it propagates). -/
def TUtils.from_try {σ : Type} (fn : PyFun CallArgs Val σ) :
    Except Err (CallArgs → σ → Except Err Triple × σ) :=
  match panicOnBadFunction fn.isAsync fn.impureTag "TUtils" "from_try" true with
  | .error e => .error e
  | .ok _ => .ok (fun args s =>
      match fn.call args s with
      | (.ok result, s1) => (.ok (.Right result), s1)
      | (.error err, s1) =>
        if err.isMonadError || err.isKeyboardInterrupt then (.error err, s1)
        else (.ok (.Left (.errV err)), s1))

/-- The accumulation loop of `TUtils.lift`: `result = result.ap(arg)` over
the wrapped arguments, left to right. -/
def liftGo {σ : Type} (env : FnEnv σ) (acc : Triple) (args : List Triple)
    (s : σ) : Except Err Triple × σ :=
  match args with
  | [] => (.ok acc, s)
  | a :: rest =>
    match Triple.ap env acc a s with
    | (.error e, s1) => (.error e, s1)
    | (.ok acc1, s1) => liftGo env acc1 rest s1

/-- Embedding of `TUtils.lift`: start from `Right(curried)` and apply every
wrapped positional argument through `ap`. -/
def TUtils.lift {σ : Type} (env : FnEnv σ) (curried : Val)
    (wrappedArgs : List Triple) (s : σ) : Except Err Triple × σ :=
  liftGo env (.Right curried) wrappedArgs s

/-- Embedding of `getattr(arg, value) if isinstance(arg, Triple) else arg`
inside `closer`: `Nothing` has no `value` attribute, so unwrapping it raises
`AttributeError` (dead code under the bad-argument guard). -/
def unwrapTriple : Val → Except Err Val
  | .tripleV (.Right v) => .ok v
  | .tripleV (.Left v) => .ok v
  | .tripleV .Nothing => .error (.attributeError "Nothing has no attribute value")
  | v => .ok v

/-- Unwrap every positional argument, propagating a raised error. -/
def unwrapList : List Val → Except Err (List Val)
  | [] => .ok []
  | a :: rest =>
    match unwrapTriple a with
    | .error e => .error e
    | .ok v =>
      match unwrapList rest with
      | .error e => .error e
      | .ok vs => .ok (v :: vs)

/-- Unwrap every named argument, propagating a raised error. -/
def unwrapKwList : List (String × Val) → Except Err (List (String × Val))
  | [] => .ok []
  | p :: rest =>
    match unwrapTriple p.2 with
    | .error e => .error e
    | .ok v =>
      match unwrapKwList rest with
      | .error e => .error e
      | .ok vs => .ok ((p.1, v) :: vs)

/-- Embedding of the inner wrapper produced by `TUtils.closer`: scan the
positional arguments, then the named-argument values, for the first bad
`Triple` entity and return it unchanged; otherwise unwrap every `Triple`
argument to its payload and call the wrapped function. -/
def closerWrapper {σ : Type}
    (func : List Val → List (String × Val) → σ → Except Err Val × σ)
    (args : List Val) (kwargs : List (String × Val)) (s : σ) :
    Except Err Val × σ :=
  match List.find? TUtils.is_bad args with
  | some bad => (.ok bad, s)
  | none =>
    match List.find? TUtils.is_bad (kwargs.map Prod.snd) with
    | some bad => (.ok bad, s)
    | none =>
      match unwrapList args with
      | .error e => (.error e, s)
      | .ok upos =>
        match unwrapKwList kwargs with
        | .error e => (.error e, s)
        | .ok unamed => func upos unamed s

/-- Payload of a `Right`, identity on everything else: the specification's
reading of the unwrapping done by `closer` once no bad argument remains. -/
def payloadOrSelf : Val → Val
  | .tripleV (.Right v) => v
  | v => v

/-- Deferred effect body: the `isAsync` flag records whether the stored
callable is an `async def` (what `inspect.iscoroutinefunction` sees), and
`run` is its state-passing behaviour. -/
structure Body (σ : Type) where
  isAsync : Bool
  run : σ → Except Err Val × σ

/-- Embedding of `panics.on_coroutine`: reject an `async def` callable. -/
def on_coroutine (fnAsync : Bool) (monadName : String) (method : String) :
    Except Err Unit :=
  if fnAsync then
    .error (.monadError monadName method "async function can not be used")
  else
    .ok ()

/-- Synchronous-only lazy effect wrapper of `effsync.py`. -/
structure EffSync (σ : Type) where
  effect : Body σ

/-- Return value of a user function handed to an `EffSync` combinator:
either a plain value or an `EffSync` instance (for the `isinstance`
contract checks). -/
inductive SyncVal (σ : Type) where
  | plain (v : Val)
  | eff (e : EffSync σ)

/-- Embedding of `panics.on_monadic_result` at type `EffSync`: the function
must not have returned an `EffSync` entity. -/
def on_monadic_result {σ : Type} (result : SyncVal σ) (monadName : String)
    (method : String) : Except Err Val :=
  match result with
  | .eff _ =>
      .error (.monadError monadName method
        "return value of applying function must not be an EffSync entity")
  | .plain v => .ok v

/-- Embedding of `panics.on_another_instance` at type `EffSync`: the
function must have returned an `EffSync` entity. -/
def on_another_instance {σ : Type} (result : SyncVal σ) (monadName : String)
    (method : String) : Except Err (EffSync σ) :=
  match result with
  | .eff e => .ok e
  | .plain _ =>
      .error (.monadError monadName method
        "return value of applying function must be an EffSync entity")

/-- Embedding of `EffSync.__init__`: the wrapped body itself must be
synchronous. -/
def EffSync.init {σ : Type} (b : Body σ) : Except Err (EffSync σ) :=
  match on_coroutine b.isAsync "EffSync" "__init__" with
  | .error e => .error e
  | .ok _ => .ok ⟨b⟩

/-- Embedding of `EffSync.map`: validate the function at combinator-call
time, then build the new deferred body (a plain `def`, hence synchronous —
the constructor recheck on it is vacuous): run the previous body,
short-circuit on a bad `Triple`, apply the function, reject an `EffSync`
result. -/
def EffSync.map {σ : Type} (e : EffSync σ) (fn : PyFun Val (SyncVal σ) σ) :
    Except Err (EffSync σ) :=
  match on_coroutine fn.isAsync "EffSync" "map" with
  | .error err => .error err
  | .ok _ => .ok ⟨⟨false, fun s =>
      match e.effect.run s with
      | (.error err, s1) => (.error err, s1)
      | (.ok previous, s1) =>
        if TUtils.is_bad previous then (.ok previous, s1)
        else
          match fn.call previous s1 with
          | (.error err, s2) => (.error err, s2)
          | (.ok current, s2) =>
            match on_monadic_result current "EffSync" "map" with
            | .error err => (.error err, s2)
            | .ok v => (.ok v, s2)⟩⟩

/-- Embedding of `EffSync.bind`: validate the function, then build the new
body: run the previous body, short-circuit on a bad `Triple`, apply the
function, require an `EffSync` result and run its body. -/
def EffSync.bind {σ : Type} (e : EffSync σ) (fn : PyFun Val (SyncVal σ) σ) :
    Except Err (EffSync σ) :=
  match on_coroutine fn.isAsync "EffSync" "bind" with
  | .error err => .error err
  | .ok _ => .ok ⟨⟨false, fun s =>
      match e.effect.run s with
      | (.error err, s1) => (.error err, s1)
      | (.ok previous, s1) =>
        if TUtils.is_bad previous then (.ok previous, s1)
        else
          match fn.call previous s1 with
          | (.error err, s2) => (.error err, s2)
          | (.ok current, s2) =>
            match on_another_instance current "EffSync" "bind" with
            | .error err => (.error err, s2)
            | .ok ce => ce.effect.run s2⟩⟩

/-- Embedding of `EffSync.catch`: validate the function, then build the new
body: run the previous body; on a raised error, re-raise `MonadError` and
`KeyboardInterrupt`, otherwise hand the error to the recovery function and,
when it returns an `EffSync`, run that effect. -/
def EffSync.catch {σ : Type} (e : EffSync σ) (fn : PyFun Err (SyncVal σ) σ) :
    Except Err (EffSync σ) :=
  match on_coroutine fn.isAsync "EffSync" "catch" with
  | .error err => .error err
  | .ok _ => .ok ⟨⟨false, fun s =>
      match e.effect.run s with
      | (.ok v, s1) => (.ok v, s1)
      | (.error err, s1) =>
        if err.isMonadError || err.isKeyboardInterrupt then (.error err, s1)
        else
          match fn.call err s1 with
          | (.error err2, s2) => (.error err2, s2)
          | (.ok current, s2) =>
            match current with
            | .eff ce => ce.effect.run s2
            | .plain v => (.ok v, s2)⟩⟩

/-- Embedding of `EffSync.ensure`: validate the cleanup function, then build
the new body: run the previous body and, via `try`/`finally`, always run the
cleanup afterwards; a raising cleanup replaces the outcome (Python
`finally` semantics), otherwise the original outcome is returned. -/
def EffSync.ensure {σ : Type} (e : EffSync σ) (fn : PyFun Unit Unit σ) :
    Except Err (EffSync σ) :=
  match on_coroutine fn.isAsync "EffSync" "ensure" with
  | .error err => .error err
  | .ok _ => .ok ⟨⟨false, fun s =>
      match e.effect.run s with
      | (r, s1) =>
        match fn.call () s1 with
        | (.ok _, s2) => (r, s2)
        | (.error ef, s2) => (.error ef, s2)⟩⟩

/-- Embedding of `EffSync.run`: invoke the stored body. -/
def EffSync.run {σ : Type} (e : EffSync σ) (s : σ) : Except Err Val × σ :=
  e.effect.run s

/-- Embedding of `EffSync.of`: wrap a plain value in an already-available
synchronous body (a lambda, hence synchronous). -/
def EffSync.of {σ : Type} (v : Val) : EffSync σ :=
  ⟨⟨false, fun s => (.ok v, s)⟩⟩

/-- Asynchronous-capable lazy effect wrapper of `eff.py`.  Its constructor
performs no inspection. -/
structure Eff (σ : Type) where
  effect : Body σ

/-- Return value of a user function handed to an `Eff` combinator: either a
plain value or an `Eff` instance. -/
inductive AsyncVal (σ : Type) where
  | plain (v : Val)
  | eff (e : Eff σ)

/-- Embedding of `_panic_on_monadic_result` from `eff.py` at type `Eff`. -/
def eff_on_monadic_result {σ : Type} (result : AsyncVal σ) (method : String) :
    Except Err Val :=
  match result with
  | .eff _ =>
      .error (.monadError "Eff" method
        "return value of applying function must not be an Eff entity")
  | .plain v => .ok v

/-- Embedding of `Eff.map`: no validation at combinator-call time (sync and
async functions are both accepted; awaits are modelled as direct
evaluation).  The new body is an `async def`, hence the `true` flag. -/
def Eff.map {σ : Type} (e : Eff σ) (fn : PyFun Val (AsyncVal σ) σ) : Eff σ :=
  ⟨⟨true, fun s =>
      match e.effect.run s with
      | (.error err, s1) => (.error err, s1)
      | (.ok previous, s1) =>
        if TUtils.is_bad previous then (.ok previous, s1)
        else
          match fn.call previous s1 with
          | (.error err, s2) => (.error err, s2)
          | (.ok current, s2) =>
            match eff_on_monadic_result current "map" with
            | .error err => (.error err, s2)
            | .ok v => (.ok v, s2)⟩⟩

/-- Embedding of `Eff.catch`: run the previous body; on a raised error,
re-raise `MonadError` and `KeyboardInterrupt`, otherwise hand the error to
the recovery function and, when it returns an `Eff`, run that effect. -/
def Eff.catch {σ : Type} (e : Eff σ) (fn : PyFun Err (AsyncVal σ) σ) : Eff σ :=
  ⟨⟨true, fun s =>
      match e.effect.run s with
      | (.ok v, s1) => (.ok v, s1)
      | (.error err, s1) =>
        if err.isMonadError || err.isKeyboardInterrupt then (.error err, s1)
        else
          match fn.call err s1 with
          | (.error err2, s2) => (.error err2, s2)
          | (.ok current, s2) =>
            match current with
            | .eff ce => ce.effect.run s2
            | .plain v => (.ok v, s2)⟩⟩

/-- Embedding of `Eff.ensure`: run the previous body and, via
`try`/`finally`, always run the cleanup afterwards; a raising cleanup
replaces the outcome, otherwise the original outcome is returned. -/
def Eff.ensure {σ : Type} (e : Eff σ) (fn : PyFun Unit Unit σ) : Eff σ :=
  ⟨⟨true, fun s =>
      match e.effect.run s with
      | (r, s1) =>
        match fn.call () s1 with
        | (.ok _, s2) => (r, s2)
        | (.error ef, s2) => (.error ef, s2)⟩⟩

/-- Embedding of `Eff.run` without a delay: invoke the stored body. -/
def Eff.run {σ : Type} (e : Eff σ) (s : σ) : Except Err Val × σ :=
  e.effect.run s

/-- Build an `EffSync` with a validating combinator and immediately run it:
a construction-time contract violation propagates to the caller just as a
run-time one does. -/
def runBuilt {σ : Type} (r : Except Err (EffSync σ)) (s : σ) :
    Except Err Val × σ :=
  match r with
  | .error e => (.error e, s)
  | .ok e1 => e1.effect.run s

/-- Wrap a function with `from_try` and call the wrapper: a wrap-time
contract violation propagates to the caller. -/
def applyFromTry {σ : Type}
    (r : Except Err (CallArgs → σ → Except Err Triple × σ))
    (args : CallArgs) (s : σ) : Except Err Triple × σ :=
  match r with
  | .error e => (.error e, s)
  | .ok w => w args s

/-- Boolean success test on an `Except` result. -/
def isOkE {ε α : Type} : Except ε α → Bool
  | .ok _ => true
  | .error _ => false

/-- Instrumentation: lift a body acting on `α` to the state `α × Nat`,
leaving the counter component untouched. -/
def instrBody {α : Type} (isAsync : Bool) (b : α → Except Err Val × α) :
    Body (α × Nat) :=
  ⟨isAsync, fun p =>
    match b p.1 with
    | (r, a1) => (r, (a1, p.2))⟩

/-- Instrumentation: a synchronous cleanup function that bumps the counter
component on every invocation and otherwise behaves like `g`. -/
def countCleanup {α : Type} (g : α → Except Err Unit × α) :
    PyFun Unit Unit (α × Nat) :=
  ⟨false, false, fun _ p =>
    match g p.1 with
    | (r, a1) => (r, (a1, p.2 + 1))⟩

/-- Concrete synchronous pure function returning a plain (non-`Triple`)
value, for exercising `Right.bind`. -/
def c1Fn : PyFun Val Val Unit :=
  ⟨false, false, fun _ s => (.ok (.base 7), s)⟩

/-- Concrete synchronous effect whose body raises a `MonadError` and bumps
the state. -/
def c2EffSync : EffSync Nat :=
  ⟨⟨false, fun s => (.error (.monadError "Right" "map" "m"), s + 1)⟩⟩

/-- Concrete synchronous recovery function that would bump the state by one
hundred if it were ever invoked. -/
def c2Fn : PyFun Err (SyncVal Nat) Nat :=
  ⟨false, false, fun _ s => (.ok (.plain (.base 0)), s + 100)⟩

/-- Concrete asynchronous effect whose body raises a `MonadError` and bumps
the state. -/
def c2Eff : Eff Nat :=
  ⟨⟨true, fun s => (.error (.monadError "Right" "map" "m"), s + 1)⟩⟩

/-- Concrete recovery function for the asynchronous wrapper that would bump
the state by one hundred if it were ever invoked. -/
def c2AFn : PyFun Err (AsyncVal Nat) Nat :=
  ⟨false, false, fun _ s => (.ok (.plain (.base 0)), s + 100)⟩

/-- Concrete effect body over an `Int` state that returns it wrapped and
increments it. -/
def c4B (a : Int) : Except Err Val × Int := (.ok (.base a), a + 1)

/-- Concrete effect body over an `Int` state that raises and increments. -/
def c4BErr (a : Int) : Except Err Val × Int := (.error (.userExc "E" 1), a + 1)

/-- Concrete cleanup behaviour: succeed and double the state. -/
def c4G (a : Int) : Except Err Unit × Int := (.ok (), a * 2)

/-- Concrete asynchronous function, for exercising the synchronous-only
contract checks. -/
def c5AsyncFn {σ : Type} : PyFun Val (SyncVal σ) σ :=
  ⟨true, false, fun _ s => (.ok (.plain .vnone), s)⟩

/-- Concrete asynchronous recovery function, for exercising `catch`. -/
def c5AsyncCatchFn {σ : Type} : PyFun Err (SyncVal σ) σ :=
  ⟨true, false, fun _ s => (.ok (.plain .vnone), s)⟩

/-- Concrete asynchronous cleanup function, for exercising `ensure`. -/
def c5AsyncCleanup {σ : Type} : PyFun Unit Unit σ :=
  ⟨true, false, fun _ s => (.ok (), s)⟩

/-- Concrete asynchronous effect body, for exercising the constructor. -/
def c5AsyncBody {σ : Type} : Body σ :=
  ⟨true, fun s => (.ok .vnone, s)⟩

/-- Concrete synchronous pure function that succeeds on `[0]`, raises a
domain error on `[1]` and raises a `MonadError` on anything else. -/
def c6Fn : PyFun CallArgs Val Unit :=
  ⟨false, false, fun args s =>
    match args.1 with
    | [.base 0] => (.ok (.base 42), s)
    | [.base 1] => (.error (.userExc "ValueError" 7), s)
    | _ => (.error (.monadError "Right" "map" "m"), s)⟩

/-- Concrete function environment in which every call returns a fresh pure
synchronous callable (a partial application). -/
def c7Env : FnEnv Unit := fun _ _ s => (.ok (.fnV false false 99), s)

/-- Concrete wrapped function counting its positional arguments. -/
def c8Func : List Val → List (String × Val) → Unit → Except Err Val × Unit :=
  fun a _ s => (.ok (.base a.length), s)

/-- Concrete synchronous effect over a `Nat` state yielding a plain value. -/
def c10E : EffSync Nat := ⟨⟨false, fun s => (.ok (.base 5), s)⟩⟩

/-- Concrete synchronous function tagged impure, for the `EffSync` map. -/
def c10Fn : PyFun Val (SyncVal Nat) Nat :=
  ⟨false, true, fun _ s => (.ok (.plain (.base 9)), s + 1)⟩

/-- Concrete asynchronous-wrapper effect yielding a plain value. -/
def c10AE : Eff Nat := ⟨⟨true, fun s => (.ok (.base 5), s)⟩⟩

/-- Concrete synchronous function tagged impure, for the `Eff` map. -/
def c10AFn : PyFun Val (AsyncVal Nat) Nat :=
  ⟨false, true, fun _ s => (.ok (.plain (.base 9)), s + 1)⟩

/-- Claim C1 counterexample: a `Right` bound through a synchronous pure
function whose return value is a plain integer (not a `Triple`) does not
fail with a `MonadError`; `bind` returns the plain value directly. -/
theorem rightBindDoesNotCheckReturn_cex :
    Triple.bind (.Right (.base 0)) c1Fn () = (.ok (.base 7), ()) := by
  rfl

/-- Claim C1 (amended): for every `Right` holding payload `p` and every
synchronous, not-impure function `f`, `bind` validates only the shape of
`f` itself and then returns `f(p)` unchanged — the return value is not
checked against the result type, so a non-`Triple` return is passed
through rather than rejected. -/
theorem rightBindDoesNotCheckReturn :
    ∀ {σ : Type} (fn : PyFun Val Val σ) (v : Val) (s : σ),
      fn.isAsync = false → fn.impureTag = false →
      Triple.bind (.Right v) fn s = fn.call v s := by
  intro σ fn v s h1 h2
  simp [Triple.bind, panicOnBadFunction, h1, h2]

/-- Witness for the amended claim C1 at a concrete input. -/
theorem rightBindDoesNotCheckReturn_witness :
    Triple.bind (.Right (.base 0)) c1Fn () = c1Fn.call (.base 0) () := by
  exact rightBindDoesNotCheckReturn c1Fn (.base 0) () rfl rfl

/-- Claim C2: a chain whose body raises a `MonadError` when run still
raises the very same `MonadError` after being wrapped in `catch`, for any
recovery function; the recovery function is never invoked (the outcome and
the final state are exactly those of the body, independent of the
function).  Both the synchronous `EffSync.catch` and the asynchronous
`Eff.catch` behave this way; for the synchronous wrapper the recovery
function must itself be synchronous for the `catch` call to construct. -/
theorem catchNeverInterceptsMonadError :
    (∀ {σ : Type} (e : EffSync σ) (fn : PyFun Err (SyncVal σ) σ)
        (m me msg : String) (s s1 : σ),
        fn.isAsync = false →
        e.effect.run s = (.error (.monadError m me msg), s1) →
        runBuilt (EffSync.catch e fn) s = (.error (.monadError m me msg), s1))
    ∧ (∀ {σ : Type} (e : Eff σ) (fn : PyFun Err (AsyncVal σ) σ)
        (m me msg : String) (s s1 : σ),
        e.effect.run s = (.error (.monadError m me msg), s1) →
        (Eff.catch e fn).effect.run s = (.error (.monadError m me msg), s1)) := by
  constructor
  · intro σ e fn m me msg s s1 hfn hrun
    simp [EffSync.catch, on_coroutine, hfn, runBuilt, hrun, Err.isMonadError]
  · intro σ e fn m me msg s s1 hrun
    simp [Eff.catch, hrun, Err.isMonadError]

/-- Witness for claim C2 at concrete inputs: the body raises the
`MonadError`, `catch` re-raises it, and the recovery function (which would
have bumped the state by one hundred) leaves no trace. -/
theorem catchNeverInterceptsMonadError_witness :
    runBuilt (EffSync.catch c2EffSync c2Fn) 0 =
        (.error (.monadError "Right" "map" "m"), 1)
    ∧ (Eff.catch c2Eff c2AFn).effect.run 0 =
        (.error (.monadError "Right" "map" "m"), 1) := by
  exact ⟨catchNeverInterceptsMonadError.1 c2EffSync c2Fn "Right" "map" "m" 0 1 rfl rfl,
    catchNeverInterceptsMonadError.2 c2Eff c2AFn "Right" "map" "m" 0 1 rfl⟩

/-- Helper: a non-`Right` variant (a `Left` or a `Nothing`) survives an
arbitrary `map`/`bind` method chain unchanged, with the state untouched. -/
theorem runStepsNonRight {σ : Type} (steps : List (Step σ)) (t : Triple)
    (h : t.is_right = false) (s : σ) :
    runSteps (.tripleV t) steps s = (.ok (.tripleV t), s) := by
  induction steps with
  | nil => rfl
  | cons st rest ih =>
    cases t with
    | Right v => simp [Triple.is_right] at h
    | Left v =>
      cases st with
      | smap fn => simpa [runSteps, applyStep, Triple.map] using ih
      | sbind fn => simpa [runSteps, applyStep, Triple.bind] using ih
    | Nothing =>
      cases st with
      | smap fn => simpa [runSteps, applyStep, Triple.map] using ih
      | sbind fn => simpa [runSteps, applyStep, Triple.bind] using ih

/-- Claim C3: `map` and `bind` are no-ops on both terminal variants —
`Left.map` and `Left.bind` return the same `Left` with its payload (and the
state) unchanged, `Nothing.map` and `Nothing.bind` return the same
`Nothing` — and a `Left` or a `Nothing` introduced at any point of an
arbitrarily long `map`/`bind` method chain reaches the end of the chain
unchanged, regardless of the chain length and of the functions supplied to
the later steps (none of them is invoked: value and state are untouched). -/
theorem failureAndEmptyShortCircuit :
    (∀ {σ : Type} (fn : PyFun Val Val σ) (ev : Val) (s : σ),
        Triple.map (.Left ev) fn s = (.ok (.Left ev), s))
    ∧ (∀ {σ : Type} (fn : PyFun Val Val σ) (s : σ),
        Triple.map .Nothing fn s = (.ok .Nothing, s))
    ∧ (∀ {σ : Type} (fn : PyFun Val Val σ) (ev : Val) (s : σ),
        Triple.bind (.Left ev) fn s = (.ok (.tripleV (.Left ev)), s))
    ∧ (∀ {σ : Type} (fn : PyFun Val Val σ) (s : σ),
        Triple.bind .Nothing fn s = (.ok (.tripleV .Nothing), s))
    ∧ (∀ {σ : Type} (steps : List (Step σ)) (ev : Val) (s : σ),
        runSteps (.tripleV (.Left ev)) steps s = (.ok (.tripleV (.Left ev)), s))
    ∧ (∀ {σ : Type} (steps : List (Step σ)) (s : σ),
        runSteps (.tripleV .Nothing) steps s = (.ok (.tripleV .Nothing), s)) := by
  refine ⟨fun _ _ _ => rfl, fun _ _ => rfl, fun _ _ _ => rfl, fun _ _ => rfl, ?_, ?_⟩
  · intro σ steps ev s
    exact runStepsNonRight steps (.Left ev) rfl s
  · intro σ steps s
    exact runStepsNonRight steps .Nothing rfl s

/-- Claim C9: `Right.ap` validates its own payload before looking at the
argument: when the payload is an asynchronous or impure-tagged callable,
`ap` raises a `MonadError` for every argument — in particular also for a
`Left` or `Nothing` argument, which is therefore never returned through
the usual short-circuit. -/
theorem apValidatesPayloadBeforeArgument :
    ∀ {σ : Type} (a i : Bool) (id : Nat) (env : FnEnv σ) (w : Triple) (s : σ),
      (a || i) = true →
      Triple.ap env (.Right (.fnV a i id)) w s =
        (.error (.monadError "Right" "ap"
          (if a then "function must be sync"
           else "impure function can not be used")), s) := by
  intro σ a i id env w s h
  cases a with
  | true => simp [Triple.ap, panicOnBadFunction, Val.isAsyncFn, Val.isImpure]
  | false =>
    simp only [Bool.false_or] at h
    simp [Triple.ap, panicOnBadFunction, Val.isAsyncFn, Val.isImpure, h]

/-- Witness for claim C9 at a concrete input: an async payload and a `Left`
argument. -/
theorem apValidatesPayloadBeforeArgument_witness :
    Triple.ap (σ := Unit) c7Env (.Right (.fnV true false 0)) (.Left (.base 0)) () =
      (.error (.monadError "Right" "ap" "function must be sync"), ()) := by
  simpa using apValidatesPayloadBeforeArgument true false 0 c7Env (.Left (.base 0)) () rfl

/-- Claim C4: `ensure` invokes the cleanup function exactly once after the
body finishes, on both exit paths.  The state is instrumented with a
counter that only the cleanup touches: whatever the body's outcome (normal
return or raised error) and whatever the cleanup does, the counter ends at
exactly one more than it started; and when the cleanup completes normally,
the body's outcome — its returned value or its raised error `r` — is
passed through unchanged.  Both `EffSync.ensure` and `Eff.ensure` behave
this way. -/
theorem ensureRunsCleanupExactlyOnce :
    (∀ {α : Type} (b : α → Except Err Val × α) (g : α → Except Err Unit × α)
        (a : α) (n : Nat),
        ((runBuilt (EffSync.ensure ⟨instrBody false b⟩ (countCleanup g)) (a, n)).2.2
          = n + 1)
        ∧ (∀ r a1 a2, b a = (r, a1) → g a1 = (.ok (), a2) →
            runBuilt (EffSync.ensure ⟨instrBody false b⟩ (countCleanup g)) (a, n)
              = (r, (a2, n + 1))))
    ∧ (∀ {α : Type} (b : α → Except Err Val × α) (g : α → Except Err Unit × α)
        (a : α) (n : Nat),
        (((Eff.ensure ⟨instrBody true b⟩ (countCleanup g)).effect.run (a, n)).2.2
          = n + 1)
        ∧ (∀ r a1 a2, b a = (r, a1) → g a1 = (.ok (), a2) →
            (Eff.ensure ⟨instrBody true b⟩ (countCleanup g)).effect.run (a, n)
              = (r, (a2, n + 1)))) := by
  constructor
  · intro α b g a n
    constructor
    · rcases hb : b a with ⟨r, a1⟩
      rcases hg : g a1 with ⟨rg, a2⟩
      cases rg with
      | ok u =>
        simp [runBuilt, EffSync.ensure, on_coroutine, countCleanup, instrBody, hb, hg]
      | error ef =>
        simp [runBuilt, EffSync.ensure, on_coroutine, countCleanup, instrBody, hb, hg]
    · intro r a1 a2 hb hg
      simp [runBuilt, EffSync.ensure, on_coroutine, countCleanup, instrBody, hb, hg]
  · intro α b g a n
    constructor
    · rcases hb : b a with ⟨r, a1⟩
      rcases hg : g a1 with ⟨rg, a2⟩
      cases rg with
      | ok u =>
        simp [Eff.ensure, countCleanup, instrBody, hb, hg]
      | error ef =>
        simp [Eff.ensure, countCleanup, instrBody, hb, hg]
    · intro r a1 a2 hb hg
      simp [Eff.ensure, countCleanup, instrBody, hb, hg]

/-- Witness for claim C4 at concrete inputs, covering the normal-return
path and the raised-error path of both wrappers: the counter goes from
zero to one and the body's outcome survives the cleanup. -/
theorem ensureRunsCleanupExactlyOnce_witness :
    runBuilt (EffSync.ensure ⟨instrBody false c4B⟩ (countCleanup c4G)) (3, 0)
      = (.ok (.base 3), (8, 1))
    ∧ runBuilt (EffSync.ensure ⟨instrBody false c4BErr⟩ (countCleanup c4G)) (3, 0)
      = (.error (.userExc "E" 1), (8, 1))
    ∧ (Eff.ensure ⟨instrBody true c4B⟩ (countCleanup c4G)).effect.run (3, 0)
      = (.ok (.base 3), (8, 1))
    ∧ (Eff.ensure ⟨instrBody true c4BErr⟩ (countCleanup c4G)).effect.run (3, 0)
      = (.error (.userExc "E" 1), (8, 1)) := by
  refine ⟨?_, ?_, ?_, ?_⟩
  · exact (ensureRunsCleanupExactlyOnce.1 c4B c4G 3 0).2 (.ok (.base 3)) 4 8 rfl rfl
  · exact (ensureRunsCleanupExactlyOnce.1 c4BErr c4G 3 0).2 (.error (.userExc "E" 1)) 4 8 rfl rfl
  · exact (ensureRunsCleanupExactlyOnce.2 c4B c4G 3 0).2 (.ok (.base 3)) 4 8 rfl rfl
  · exact (ensureRunsCleanupExactlyOnce.2 c4BErr c4G 3 0).2 (.error (.userExc "E" 1)) 4 8 rfl rfl

/-- Claim C5: the synchronous-only wrapper verifies synchronicity at
construction and at every combinator call — the constructor checks the
wrapped body, and `map`, `bind`, `catch` and `ensure` each check their
function argument — and fails with a `MonadError` when given an
asynchronous (coroutine) function.  The error is returned by the
combinator call itself, before any deferred body is even built, so no user
computation executes. -/
theorem effSyncRejectsAsyncFunctions :
    ∀ {σ : Type} (b : Body σ) (e : EffSync σ)
      (fnv fnb : PyFun Val (SyncVal σ) σ) (fne : PyFun Err (SyncVal σ) σ)
      (fnu : PyFun Unit Unit σ),
      (b.isAsync = true →
        EffSync.init b = .error
          (.monadError "EffSync" "__init__" "async function can not be used"))
      ∧ (fnv.isAsync = true →
        EffSync.map e fnv = .error
          (.monadError "EffSync" "map" "async function can not be used"))
      ∧ (fnb.isAsync = true →
        EffSync.bind e fnb = .error
          (.monadError "EffSync" "bind" "async function can not be used"))
      ∧ (fne.isAsync = true →
        EffSync.catch e fne = .error
          (.monadError "EffSync" "catch" "async function can not be used"))
      ∧ (fnu.isAsync = true →
        EffSync.ensure e fnu = .error
          (.monadError "EffSync" "ensure" "async function can not be used")) := by
  intro σ b e fnv fnb fne fnu
  refine ⟨fun h => ?_, fun h => ?_, fun h => ?_, fun h => ?_, fun h => ?_⟩
  · simp [EffSync.init, on_coroutine, h]
  · simp [EffSync.map, on_coroutine, h]
  · simp [EffSync.bind, on_coroutine, h]
  · simp [EffSync.catch, on_coroutine, h]
  · simp [EffSync.ensure, on_coroutine, h]

/-- Witness for claim C5 at concrete asynchronous inputs. -/
theorem effSyncRejectsAsyncFunctions_witness :
    EffSync.init (σ := Unit) c5AsyncBody = .error
      (.monadError "EffSync" "__init__" "async function can not be used")
    ∧ EffSync.map (EffSync.of (σ := Unit) .vnone) c5AsyncFn = .error
      (.monadError "EffSync" "map" "async function can not be used")
    ∧ EffSync.bind (EffSync.of (σ := Unit) .vnone) c5AsyncFn = .error
      (.monadError "EffSync" "bind" "async function can not be used")
    ∧ EffSync.catch (EffSync.of (σ := Unit) .vnone) c5AsyncCatchFn = .error
      (.monadError "EffSync" "catch" "async function can not be used")
    ∧ EffSync.ensure (EffSync.of (σ := Unit) .vnone) c5AsyncCleanup = .error
      (.monadError "EffSync" "ensure" "async function can not be used") := by
  have h := effSyncRejectsAsyncFunctions (σ := Unit) c5AsyncBody
    (EffSync.of .vnone) c5AsyncFn c5AsyncFn c5AsyncCatchFn c5AsyncCleanup
  exact ⟨h.1 rfl, h.2.1 rfl, h.2.2.1 rfl, h.2.2.2.1 rfl, h.2.2.2.2 rfl⟩

/-- Claim C6: for a synchronous (and not impure-tagged) function, the
`from_try` wrapper, called with any positional and named arguments,
returns `Right(result)` when the function returns normally and
`Left(err)` when it raises an error; a raised `MonadError`, however,
propagates out of the wrapper instead of being captured. -/
theorem fromTryCapturesOutcomes :
    ∀ {σ : Type} (fn : PyFun CallArgs Val σ),
      fn.isAsync = false → fn.impureTag = false →
      (∀ args s v s1, fn.call args s = (.ok v, s1) →
        applyFromTry (TUtils.from_try fn) args s = (.ok (.Right v), s1))
      ∧ (∀ args s e2 s1, fn.call args s = (.error e2, s1) →
          e2.isMonadError = false → e2.isKeyboardInterrupt = false →
          applyFromTry (TUtils.from_try fn) args s = (.ok (.Left (.errV e2)), s1))
      ∧ (∀ args s m me msg s1,
          fn.call args s = (.error (.monadError m me msg), s1) →
          applyFromTry (TUtils.from_try fn) args s
            = (.error (.monadError m me msg), s1)) := by
  intro σ fn h1 h2
  refine ⟨?_, ?_, ?_⟩
  · intro args s v s1 hc
    simp [applyFromTry, TUtils.from_try, panicOnBadFunction, h1, h2, hc]
  · intro args s e2 s1 hc hm hk
    simp [applyFromTry, TUtils.from_try, panicOnBadFunction, h1, h2, hc, hm, hk]
  · intro args s m me msg s1 hc
    simp [applyFromTry, TUtils.from_try, panicOnBadFunction, h1, h2, hc,
      Err.isMonadError]

/-- Witness for claim C6 at concrete inputs: a normal return, a raised
domain error and a raised `MonadError`. -/
theorem fromTryCapturesOutcomes_witness :
    applyFromTry (TUtils.from_try c6Fn) ([.base 0], []) ()
      = (.ok (.Right (.base 42)), ())
    ∧ applyFromTry (TUtils.from_try c6Fn) ([.base 1], []) ()
      = (.ok (.Left (.errV (.userExc "ValueError" 7))), ())
    ∧ applyFromTry (TUtils.from_try c6Fn) ([.base 2], []) ()
      = (.error (.monadError "Right" "map" "m"), ()) := by
  have h := fromTryCapturesOutcomes c6Fn rfl rfl
  exact ⟨h.1 ([.base 0], []) () (.base 42) () rfl,
    h.2.1 ([.base 1], []) () (.userExc "ValueError" 7) () rfl rfl rfl,
    h.2.2 ([.base 2], []) () "Right" "map" "m" () rfl⟩

/-- Claim C7: `lift` folds the wrapped positional arguments into `Right` of
the curried callable via repeated `ap`, left to right.  First conjunct: the
concrete scenario — for every curried callable whose partial application at
the first argument is again a synchronous, pure, non-`Triple` value,
`lift(f, Right 1, Left e, Right 3)` returns the `Left e` argument (the
outcome depends on the environment only through that first partial
application, so the underlying function is never fully invoked).  Second
conjunct: once the accumulator is a non-`Right`, the remaining arguments
leave it (and the state) unchanged. -/
theorem liftShortCircuitsOnFirstBad :
    (∀ {σ : Type} (env : FnEnv σ) (id : Nat) (s s1 : σ) (v1 : Val),
        env id (.base 1) s = (.ok v1, s1) →
        v1.isAsyncFn = false → v1.isImpure = false → v1.isTriple = false →
        TUtils.lift env (.fnV false false id)
          [.Right (.base 1), .Left (.vstr "e"), .Right (.base 3)] s
          = (.ok (.Left (.vstr "e")), s1))
    ∧ (∀ {σ : Type} (env : FnEnv σ) (t : Triple) (args : List Triple) (s : σ),
        t.is_right = false → liftGo env t args s = (.ok t, s)) := by
  constructor
  · intro σ env id s s1 v1 henv ha hi ht
    cases v1 with
    | fnV a i fid =>
      simp [Val.isAsyncFn] at ha
      simp [Val.isImpure] at hi
      subst ha; subst hi
      simp [TUtils.lift, liftGo, Triple.ap, callVal, panicOnBadFunction,
        Val.isAsyncFn, Val.isImpure, henv]
    | tripleV t => simp [Val.isTriple] at ht
    | base n =>
      simp [TUtils.lift, liftGo, Triple.ap, callVal, panicOnBadFunction,
        Val.isAsyncFn, Val.isImpure, henv]
    | vstr str =>
      simp [TUtils.lift, liftGo, Triple.ap, callVal, panicOnBadFunction,
        Val.isAsyncFn, Val.isImpure, henv]
    | vnone =>
      simp [TUtils.lift, liftGo, Triple.ap, callVal, panicOnBadFunction,
        Val.isAsyncFn, Val.isImpure, henv]
    | errV e2 =>
      simp [TUtils.lift, liftGo, Triple.ap, callVal, panicOnBadFunction,
        Val.isAsyncFn, Val.isImpure, henv]
  · intro σ env t args
    induction args with
    | nil => intro s _; rfl
    | cons a rest ih =>
      intro s hbad
      cases t with
      | Right v => simp [Triple.is_right] at hbad
      | Left v => simpa [liftGo, Triple.ap] using ih s hbad
      | Nothing => simpa [liftGo, Triple.ap] using ih s hbad

/-- Witness for claim C7 at concrete inputs: a curried callable whose
partial applications come from `c7Env`, and the short-circuit fold from a
`Left` accumulator. -/
theorem liftShortCircuitsOnFirstBad_witness :
    TUtils.lift (σ := Unit) c7Env (.fnV false false 0)
      [.Right (.base 1), .Left (.vstr "e"), .Right (.base 3)] ()
      = (.ok (.Left (.vstr "e")), ())
    ∧ liftGo (σ := Unit) c7Env (.Left (.base 5)) [.Right (.base 1), .Nothing] ()
      = (.ok (.Left (.base 5)), ()) := by
  exact ⟨liftShortCircuitsOnFirstBad.1 c7Env 0 () () (.fnV false false 99)
      rfl rfl rfl rfl,
    liftShortCircuitsOnFirstBad.2 c7Env (.Left (.base 5))
      [.Right (.base 1), .Nothing] () rfl⟩

/-- Helper: a hit in the first list decides `find?` on the appended list. -/
theorem findAppendSome {α : Type} (p : α → Bool) (l1 l2 : List α) (b : α)
    (h : List.find? p l1 = some b) : List.find? p (l1 ++ l2) = some b := by
  induction l1 with
  | nil => simp [List.find?] at h
  | cons a rest ih =>
    rw [List.find?_cons] at h
    rw [List.cons_append, List.find?_cons]
    cases hpa : p a with
    | true => simp only [hpa, cond_true] at h ⊢; exact h
    | false => simp only [hpa, cond_false] at h ⊢; exact ih h

/-- Helper: a miss in the first list defers `find?` to the second list. -/
theorem findAppendNone {α : Type} (p : α → Bool) (l1 l2 : List α)
    (h : List.find? p l1 = none) :
    List.find? p (l1 ++ l2) = List.find? p l2 := by
  induction l1 with
  | nil => simp
  | cons a rest ih =>
    rw [List.find?_cons] at h
    rw [List.cons_append, List.find?_cons]
    cases hpa : p a with
    | true => simp only [hpa, cond_true] at h; exact Option.noConfusion h
    | false => simp only [hpa, cond_false] at h ⊢; exact ih h

/-- Helper: an argument that is not a bad `Triple` entity unwraps without
raising, to its payload when it is a `Right` and to itself otherwise. -/
theorem unwrapTripleOfNotBad (a : Val) (h : TUtils.is_bad a = false) :
    unwrapTriple a = .ok (payloadOrSelf a) := by
  cases a with
  | tripleV t =>
    cases t with
    | Right v => rfl
    | Left v => simp [TUtils.is_bad, Triple.is_right] at h
    | Nothing => simp [TUtils.is_bad, Triple.is_right] at h
  | base n => rfl
  | vstr s => rfl
  | vnone => rfl
  | errV e => rfl
  | fnV x y z => rfl

/-- Helper: with no bad positional argument, the positional unwrapping loop
succeeds and unwraps every `Right` to its payload. -/
theorem unwrapListOfNoBad (args : List Val)
    (h : List.find? TUtils.is_bad args = none) :
    unwrapList args = .ok (args.map payloadOrSelf) := by
  induction args with
  | nil => rfl
  | cons a rest ih =>
    rw [List.find?_cons] at h
    cases hba : TUtils.is_bad a with
    | true => simp only [hba, cond_true] at h; exact Option.noConfusion h
    | false =>
      simp only [hba, cond_false] at h
      simp only [unwrapList, unwrapTripleOfNotBad a hba, ih h, List.map_cons]

/-- Helper: with no bad named-argument value, the named unwrapping loop
succeeds and unwraps every `Right` value to its payload. -/
theorem unwrapKwListOfNoBad (kwargs : List (String × Val))
    (h : List.find? TUtils.is_bad (kwargs.map Prod.snd) = none) :
    unwrapKwList kwargs = .ok (kwargs.map (fun p => (p.1, payloadOrSelf p.2))) := by
  induction kwargs with
  | nil => rfl
  | cons p rest ih =>
    rw [List.map_cons, List.find?_cons] at h
    cases hba : TUtils.is_bad p.2 with
    | true => simp only [hba, cond_true] at h; exact Option.noConfusion h
    | false =>
      simp only [hba, cond_false] at h
      simp only [unwrapKwList, unwrapTripleOfNotBad p.2 hba, ih h, List.map_cons]

/-- Claim C8: the wrapper produced by `closer`, called with positional and
named arguments, returns the first bad (non-`Right`) result argument
unchanged — positional arguments are scanned before named ones, so the
first bad element of the concatenated scan wins — without invoking the
wrapped function (the outcome and state do not depend on it); with no bad
argument it invokes the wrapped function with every `Right` argument
replaced by its payload and every non-result argument passed through
unchanged. -/
theorem closerReturnsFirstBadArgument :
    ∀ {σ : Type}
      (func : List Val → List (String × Val) → σ → Except Err Val × σ)
      (args : List Val) (kwargs : List (String × Val)) (s : σ),
      (∀ t, List.find? TUtils.is_bad (args ++ kwargs.map Prod.snd) = some t →
        closerWrapper func args kwargs s = (.ok t, s))
      ∧ (List.find? TUtils.is_bad (args ++ kwargs.map Prod.snd) = none →
        closerWrapper func args kwargs s =
          func (args.map payloadOrSelf)
            (kwargs.map (fun p => (p.1, payloadOrSelf p.2))) s) := by
  intro σ func args kwargs s
  constructor
  · intro t h
    cases hfa : List.find? TUtils.is_bad args with
    | some b =>
      have hb : some b = some t := by
        rw [← findAppendSome TUtils.is_bad args (kwargs.map Prod.snd) b hfa, h]
      simp only [Option.some.injEq] at hb
      subst hb
      simp only [closerWrapper, hfa]
    | none =>
      rw [findAppendNone TUtils.is_bad args (kwargs.map Prod.snd) hfa] at h
      simp only [closerWrapper, hfa, h]
  · intro h
    cases hfa : List.find? TUtils.is_bad args with
    | some b =>
      rw [findAppendSome TUtils.is_bad args (kwargs.map Prod.snd) b hfa] at h
      exact absurd h (by simp)
    | none =>
      rw [findAppendNone TUtils.is_bad args (kwargs.map Prod.snd) hfa] at h
      simp only [closerWrapper, hfa, h, unwrapListOfNoBad args hfa,
        unwrapKwListOfNoBad kwargs h]

/-- Witness for claim C8 at concrete inputs: a bad positional argument is
returned unchanged, and with only good arguments the wrapped function is
called on the unwrapped payloads. -/
theorem closerReturnsFirstBadArgument_witness :
    closerWrapper c8Func [.base 1, .tripleV (.Left (.vstr "e")), .base 3] [] ()
      = (.ok (.tripleV (.Left (.vstr "e"))), ())
    ∧ closerWrapper c8Func [.tripleV (.Right (.base 1)), .base 2]
        [("k", .tripleV (.Right (.base 5)))] ()
      = c8Func [.base 1, .base 2] [("k", .base 5)] () := by
  constructor
  · exact (closerReturnsFirstBadArgument c8Func
      [.base 1, .tripleV (.Left (.vstr "e")), .base 3] [] ()).1
      (.tripleV (.Left (.vstr "e"))) rfl
  · simpa using (closerReturnsFirstBadArgument c8Func
      [.tripleV (.Right (.base 1)), .base 2]
      [("k", .tripleV (.Right (.base 5)))] ()).2 rfl

/-- Claim C10: the impure tag is not enforced by the effect wrappers.
First conjunct: `EffSync.map` succeeds exactly when its function is
synchronous — the impure tag plays no role in the only construction-time
shape check.  Second and third conjuncts: for an impure-tagged function,
`EffSync.map` and `Eff.map` accept it and running the resulting effect
applies it to the previous value (`Eff.map` performs no construction-time
check at all, so no synchronicity hypothesis is needed there). -/
theorem effectWrappersIgnoreImpureTag :
    (∀ {σ : Type} (e : EffSync σ) (fn : PyFun Val (SyncVal σ) σ),
        isOkE (EffSync.map e fn) = true ↔ fn.isAsync = false)
    ∧ (∀ {σ : Type} (e : EffSync σ) (fn : PyFun Val (SyncVal σ) σ)
        (s s1 s2 : σ) (v cv : Val),
        fn.isAsync = false → fn.impureTag = true →
        e.effect.run s = (.ok v, s1) → TUtils.is_bad v = false →
        fn.call v s1 = (.ok (.plain cv), s2) →
        runBuilt (EffSync.map e fn) s = (.ok cv, s2))
    ∧ (∀ {σ : Type} (e : Eff σ) (fn : PyFun Val (AsyncVal σ) σ)
        (s s1 s2 : σ) (v cv : Val),
        fn.impureTag = true →
        e.effect.run s = (.ok v, s1) → TUtils.is_bad v = false →
        fn.call v s1 = (.ok (.plain cv), s2) →
        (Eff.map e fn).effect.run s = (.ok cv, s2)) := by
  refine ⟨?_, ?_, ?_⟩
  · intro σ e fn
    cases hfa : fn.isAsync with
    | true => simp [EffSync.map, on_coroutine, hfa, isOkE]
    | false => simp [EffSync.map, on_coroutine, hfa, isOkE]
  · intro σ e fn s s1 s2 v cv hfa himp hrun hbad hcall
    simp [runBuilt, EffSync.map, on_coroutine, hfa, hrun, hbad, hcall,
      on_monadic_result]
  · intro σ e fn s s1 s2 v cv himp hrun hbad hcall
    simp [Eff.map, hrun, hbad, hcall, eff_on_monadic_result]

/-- Witness for claim C10 at concrete inputs: an impure-tagged synchronous
function is accepted by both wrappers and applied when the effect runs. -/
theorem effectWrappersIgnoreImpureTag_witness :
    isOkE (EffSync.map c10E c10Fn) = true
    ∧ runBuilt (EffSync.map c10E c10Fn) 0 = (.ok (.base 9), 1)
    ∧ (Eff.map c10AE c10AFn).effect.run 0 = (.ok (.base 9), 1) := by
  refine ⟨?_, ?_, ?_⟩
  · exact (effectWrappersIgnoreImpureTag.1 c10E c10Fn).mpr rfl
  · exact effectWrappersIgnoreImpureTag.2.1 c10E c10Fn 0 0 1 (.base 5) (.base 9)
      rfl rfl rfl rfl rfl
  · exact effectWrappersIgnoreImpureTag.2.2 c10AE c10AFn 0 0 1 (.base 5) (.base 9)
      rfl rfl rfl rfl

end Mafunca
